import Mathlib

/-!
Verification of the `dwh-assistant` natural-language-to-SQL translation pipeline.

The development shallowly embeds the two source modules:

* `assistant/app/services/llm.py` — the orchestrator `natural_language_to_sql`,
  its response-parsing stages (markdown de-fencing, brace-bounded JSON
  extraction, `json.loads`, field normalization, direct SQL-statement
  fallback, total-failure fallback), the configuration check of
  `yandex_gpt_query`, and the debug fixture `llm_debug_answer`.
* `assistant/app/services/database.py` — table-name sanitization, the
  catalog type mapping `map_type`, and the DBML rendering of
  `build_dbml_schema` (the live catalog query is abstracted as an oracle).

Python-library behaviour is modelled on its ASCII fragment: `str.strip`,
`str.lower`, `str.isalnum` and case-insensitive regex matching are
Unicode-aware in Python; the Lean models cover the ASCII characters the
program actually manipulates, and every concrete input used in a theorem
below is ASCII.  `json.loads` is modelled by a recursive-descent parser for
the JSON grammar (objects, arrays, strings with escapes, integer/decimal
number lexemes, `true`/`false`/`null`); deviations (no `NaN`/`Infinity`,
no surrogate `\uXXXX` escapes) are confined to inputs none of the theorems
touch.  Machine floats never arise: number lexemes are kept as strings.
-/

/-! ## Python string primitives -/

/-- The six ASCII whitespace characters recognised by Python's `str.strip`
and by the regex class `\s` (`' '`, `\t`, `\n`, `\r`, `\v`, `\f`). -/
def pyIsSpace (c : Char) : Bool :=
  decide (c = ' ' ∨ c = '\t' ∨ c = '\n' ∨ c = '\r' ∨ c.toNat = 11 ∨ c.toNat = 12)

/-- `str.strip()` on a character list: drop whitespace from both ends. -/
def pyStripList (l : List Char) : List Char :=
  ((l.dropWhile pyIsSpace).reverse.dropWhile pyIsSpace).reverse

/-- Python `str.strip()` (ASCII fragment). -/
def pyStrip (s : String) : String := ⟨pyStripList s.data⟩

/-- ASCII uppercase folding of one character, as used for case-insensitive
regex keyword matching. -/
def asciiUpper (c : Char) : Char :=
  if 'a' ≤ c ∧ c ≤ 'z' then Char.ofNat (c.toNat - 32) else c

/-- ASCII lowercase folding of one character (models `str.lower` on ASCII). -/
def asciiLowerChar (c : Char) : Char :=
  if 'A' ≤ c ∧ c ≤ 'Z' then Char.ofNat (c.toNat + 32) else c

/-- Python `str.lower()` (ASCII fragment). -/
def asciiLower (s : String) : String := ⟨s.data.map asciiLowerChar⟩

/-- Whether `needle` occurs as a contiguous sublist of the second list. -/
def containsSubList (needle : List Char) : List Char → Bool
  | [] => needle.isEmpty
  | l@(_ :: rest) => List.isPrefixOf needle l || containsSubList needle rest

/-- Whether `needle` occurs as a substring of `hay` (Python `needle in hay`). -/
def strContainsSub (hay needle : String) : Bool := containsSubList needle.data hay.data

/-! ## Model of Python JSON values and `json.loads`

Python `dict`s preserve insertion order and resolve duplicate keys by
letting the later binding win; the model keeps the raw field list and a
last-binding-wins lookup. -/

/-- A parsed JSON value.  Number lexemes are kept verbatim (Python would
produce an `int`/`float`; no theorem below inspects a numeric value). -/
inductive JsonVal where
  | str (s : String)
  | num (lexeme : String)
  | bool (b : Bool)
  | null
  | arr (xs : List JsonVal)
  | obj (fields : List (String × JsonVal))

/-- Last-binding-wins lookup in an ordered field list (Python dict). -/
def lookupLast : List (String × JsonVal) → String → Option JsonVal
  | [], _ => none
  | (k, v) :: rest, key =>
    match lookupLast rest key with
    | some v2 => some v2
    | none => if k = key then some v else none

/-- Field access on a JSON value; `none` on non-objects. -/
def jvGet : JsonVal → String → Option JsonVal
  | .obj fs, k => lookupLast fs k
  | _, _ => none

/-- Python `key in result` for a parsed JSON object. -/
def jvHasKey (v : JsonVal) (k : String) : Bool := (jvGet v k).isSome

/-- `result[key]` under a `jvHasKey` guard. -/
def jvGetD (v : JsonVal) (k : String) : JsonVal := (jvGet v k).getD .null

/-- Whether a JSON number lexeme denotes zero: no nonzero digit appears in
the mantissa (sign, digits, decimal point — the exponent cannot make a
nonzero mantissa zero, nor a zero mantissa nonzero). -/
def numIsZero (lex : String) : Bool :=
  (lex.data.takeWhile (fun c => decide (c ≠ 'e' ∧ c ≠ 'E'))).all
    (fun c => decide (¬(c.isDigit ∧ c ≠ '0')))

/-- Python truthiness of a parsed JSON value (`if result["sql"]`). -/
def jvTruthy : JsonVal → Bool
  | .str s => decide (s ≠ "")
  | .num lex => !numIsZero lex
  | .bool b => b
  | .null => false
  | .arr xs => !xs.isEmpty
  | .obj fs => !fs.isEmpty

/-- The Python type name of a JSON value, for `AttributeError` messages. -/
def pyTypeName : JsonVal → String
  | .str _ => "str"
  | .num lex => if lex.data.any (fun c => decide (c = '.' ∨ c = 'e' ∨ c = 'E'))
                then "float" else "int"
  | .bool _ => "bool"
  | .null => "NoneType"
  | .arr _ => "list"
  | .obj _ => "dict"

/-- JSON decoding whitespace (`json.loads` skips space, tab, newline, CR). -/
def jsonWsChar (c : Char) : Bool := decide (c = ' ' ∨ c = '\t' ∨ c = '\n' ∨ c = '\r')

/-- Skip JSON decoding whitespace. -/
def skipJsonWs (l : List Char) : List Char := l.dropWhile jsonWsChar

/-- Value of one hexadecimal digit. -/
def hexVal (c : Char) : Option Nat :=
  if '0' ≤ c ∧ c ≤ '9' then some (c.toNat - 48)
  else if 'a' ≤ c ∧ c ≤ 'f' then some (c.toNat - 87)
  else if 'A' ≤ c ∧ c ≤ 'F' then some (c.toNat - 55)
  else none

/-- Parse the body of a JSON string after the opening quote; returns the
decoded characters and the remaining input after the closing quote. -/
def parseStrTail : List Char → Except String (List Char × List Char)
  | [] => .error "Unterminated string"
  | c :: cs =>
    if c = '"' then .ok ([], cs)
    else if c = '\\' then
      match cs with
      | [] => .error "Unterminated string"
      | e :: cs2 =>
        if e = '"' then (parseStrTail cs2).map (fun p => ('"' :: p.1, p.2))
        else if e = '\\' then (parseStrTail cs2).map (fun p => ('\\' :: p.1, p.2))
        else if e = '/' then (parseStrTail cs2).map (fun p => ('/' :: p.1, p.2))
        else if e = 'b' then (parseStrTail cs2).map (fun p => (Char.ofNat 8 :: p.1, p.2))
        else if e = 'f' then (parseStrTail cs2).map (fun p => (Char.ofNat 12 :: p.1, p.2))
        else if e = 'n' then (parseStrTail cs2).map (fun p => ('\n' :: p.1, p.2))
        else if e = 'r' then (parseStrTail cs2).map (fun p => ('\r' :: p.1, p.2))
        else if e = 't' then (parseStrTail cs2).map (fun p => ('\t' :: p.1, p.2))
        else if e = 'u' then
          match cs2 with
          | h1 :: h2 :: h3 :: h4 :: cs3 =>
            match hexVal h1, hexVal h2, hexVal h3, hexVal h4 with
            | some a, some b, some c2, some d =>
              let n := ((a * 16 + b) * 16 + c2) * 16 + d
              if 55296 ≤ n ∧ n ≤ 57343 then .error "surrogate escape not modelled"
              else (parseStrTail cs3).map (fun p => (Char.ofNat n :: p.1, p.2))
            | _, _, _, _ => .error "Invalid hex escape"
          | _ => .error "Invalid hex escape"
        else .error "Invalid escape"
    else if c.toNat < 32 then .error "Invalid control character"
    else (parseStrTail cs).map (fun p => (c :: p.1, p.2))

/-- Split a run of decimal digits off the front of the input. -/
def digitSpan (l : List Char) : List Char × List Char :=
  (l.takeWhile Char.isDigit, l.dropWhile Char.isDigit)

/-- Integer part of a JSON number: `0`, or a nonzero digit followed by
digits (JSON forbids leading zeros). -/
def parseIntPart : List Char → Except String (List Char × List Char)
  | [] => .error "Expecting digit"
  | c :: cs =>
    if c = '0' then .ok ([c], cs)
    else if c.isDigit then
      match digitSpan cs with
      | (ds, rest) => .ok (c :: ds, rest)
    else .error "Expecting digit"

/-- Optional fraction part of a JSON number. -/
def parseFracPart : List Char → Except String (List Char × List Char)
  | '.' :: cs =>
    (match digitSpan cs with
     | ([], _) => .error "Expecting digit after decimal point"
     | (ds, rest) => .ok ('.' :: ds, rest))
  | l => .ok ([], l)

/-- Optional exponent part of a JSON number. -/
def parseExpPart : List Char → Except String (List Char × List Char)
  | [] => .ok ([], [])
  | c :: cs =>
    if c = 'e' ∨ c = 'E' then
      match (match cs with
             | '+' :: r => ([('+' : Char)], r)
             | '-' :: r => ([('-' : Char)], r)
             | r => (([] : List Char), r)) with
      | (sgn, cs2) =>
        match digitSpan cs2 with
        | ([], _) => .error "Expecting digit in exponent"
        | (ds, rest) => .ok (c :: (sgn ++ ds), rest)
    else .ok ([], c :: cs)

/-- Lex a JSON number, returning its lexeme and the remaining input. -/
def parseNumber (l : List Char) : Except String (List Char × List Char) :=
  match (match l with
         | '-' :: r => ([('-' : Char)], r)
         | r => (([] : List Char), r)) with
  | (sgn, l1) =>
    match parseIntPart l1 with
    | .error e => .error e
    | .ok (ip, l2) =>
      match parseFracPart l2 with
      | .error e => .error e
      | .ok (fp, l3) =>
        match parseExpPart l3 with
        | .error e => .error e
        | .ok (ep, l4) => .ok (sgn ++ ip ++ fp ++ ep, l4)

mutual

/-- Recursive-descent parser for one JSON value; `fuel` bounds recursion. -/
def parseVal : Nat → List Char → Except String (JsonVal × List Char)
  | 0, _ => .error "Recursion limit"
  | fuel+1, l =>
    match skipJsonWs l with
    | [] => .error "Expecting value"
    | c :: cs =>
      if c = '"' then
        match parseStrTail cs with
        | .error e => .error e
        | .ok (body, rest) => .ok (.str ⟨body⟩, rest)
      else if c = '{' then
        match skipJsonWs cs with
        | '}' :: rest => .ok (.obj [], rest)
        | l2 =>
          match parseMembers fuel l2 with
          | .error e => .error e
          | .ok (fs, rest) => .ok (.obj fs, rest)
      else if c = '[' then
        match skipJsonWs cs with
        | ']' :: rest => .ok (.arr [], rest)
        | l2 =>
          match parseElems fuel l2 with
          | .error e => .error e
          | .ok (xs, rest) => .ok (.arr xs, rest)
      else if c = 't' then
        if List.isPrefixOf ['r', 'u', 'e'] cs then .ok (.bool true, cs.drop 3)
        else .error "Expecting value"
      else if c = 'f' then
        if List.isPrefixOf ['a', 'l', 's', 'e'] cs then .ok (.bool false, cs.drop 4)
        else .error "Expecting value"
      else if c = 'n' then
        if List.isPrefixOf ['u', 'l', 'l'] cs then .ok (.null, cs.drop 3)
        else .error "Expecting value"
      else if c = '-' ∨ c.isDigit then
        match parseNumber (c :: cs) with
        | .error e => .error e
        | .ok (lex, rest) => .ok (.num ⟨lex⟩, rest)
      else .error "Expecting value"

/-- Parse the members of a JSON object (input starts at a key, whitespace
already skipped; the opening brace has been consumed). -/
def parseMembers : Nat → List Char → Except String (List (String × JsonVal) × List Char)
  | 0, _ => .error "Recursion limit"
  | fuel+1, l =>
    match l with
    | '"' :: cs =>
      match parseStrTail cs with
      | .error e => .error e
      | .ok (key, l2) =>
        match skipJsonWs l2 with
        | ':' :: l3 =>
          match parseVal fuel l3 with
          | .error e => .error e
          | .ok (v, l4) =>
            match skipJsonWs l4 with
            | ',' :: l5 =>
              match parseMembers fuel (skipJsonWs l5) with
              | .error e => .error e
              | .ok (fs, rest) => .ok ((⟨key⟩, v) :: fs, rest)
            | '}' :: rest => .ok ([(⟨key⟩, v)], rest)
            | _ => .error "Expecting comma delimiter"
        | _ => .error "Expecting colon delimiter"
    | _ => .error "Expecting property name enclosed in double quotes"

/-- Parse the elements of a JSON array (the opening bracket consumed). -/
def parseElems : Nat → List Char → Except String (List JsonVal × List Char)
  | 0, _ => .error "Recursion limit"
  | fuel+1, l =>
    match parseVal fuel l with
    | .error e => .error e
    | .ok (v, l2) =>
      match skipJsonWs l2 with
      | ',' :: l3 =>
        match parseElems fuel l3 with
        | .error e => .error e
        | .ok (xs, rest) => .ok (v :: xs, rest)
      | ']' :: rest => .ok ([v], rest)
      | _ => .error "Expecting comma delimiter"

end

/-- Model of `json.loads`: parse one value and require only whitespace to
remain (`Extra data` otherwise).  Fuel is proportional to input length,
which bounds the nesting Python itself would accept. -/
def jsonLoads (s : String) : Except String JsonVal :=
  match parseVal (2 * s.data.length + 2) s.data with
  | .error e => .error e
  | .ok (v, rest) => if skipJsonWs rest = [] then .ok v else .error "Extra data"

example : jsonLoads "\x7b\"sql\": \"SELECT 1;\", \"error_description\": \"\"\x7d" =
    .ok (.obj [("sql", .str "SELECT 1;"), ("error_description", .str "")]) := rfl

example : jsonLoads "\x7boops\x7d" =
    .error "Expecting property name enclosed in double quotes" := rfl

example : jsonLoads "\x7b\"sql\": \"\\\"\", \"error_description\": \"\"\x7d" =
    .ok (.obj [("sql", .str "\""), ("error_description", .str "")]) := rfl

/-! ## Models of the three regular expressions in `natural_language_to_sql`

Python's `re` scans candidate start positions left to right and, at each
position, tries the alternatives of the pattern in order. -/

/-- Length of the whitespace run at the head of the input. -/
def wsRun (l : List Char) : Nat := (l.takeWhile pyIsSpace).length

/-- Length of a fence-pattern match starting exactly here, if any: first
alternative, a literal triple-backtick plus `json` followed by greedy
whitespace; second alternative, greedy whitespace followed by a
triple-backtick (the whitespace run can only be the maximal one, since a
backtick is not whitespace). -/
def fenceMatchLen (l : List Char) : Option Nat :=
  if List.isPrefixOf ("```json".data) l then some (7 + wsRun (l.drop 7))
  else
    match wsRun l with
    | r => if List.isPrefixOf ("```".data) (l.drop r) then some (r + 3) else none

/-- One pass of `re.sub` deleting every fence match, scanning left to
right and continuing after each match; `fuel` bounds the steps (every
match consumes at least three characters). -/
def cleanFencesList : Nat → List Char → List Char
  | 0, l => l
  | _+1, [] => []
  | fuel+1, l@(c :: cs) =>
    match fenceMatchLen l with
    | some n => cleanFencesList fuel (l.drop n)
    | none => c :: cleanFencesList fuel cs

/-- Stage 1 of the parser: `re.sub` of the fence pattern with the empty
string (`cleaned_text` in the source). -/
def cleanFences (s : String) : String := ⟨cleanFencesList (s.data.length + 1) s.data⟩

/-- Split the input at its first brace character, returning the characters
before it, the brace, and the rest. -/
def nextBrace : List Char → Option (List Char × Char × List Char)
  | [] => none
  | c :: cs =>
    if c = '{' ∨ c = '}' then some ([], c, cs)
    else (nextBrace cs).map (fun p => (c :: p.1, p.2.1, p.2.2))

/-- Match of the bounded JSON-extraction pattern anchored at this position:
either a braced region containing exactly one nested braced region, or a
flat braced region with no inner braces (the character classes of the
pattern exclude braces, so both alternatives are decided by the sequence
of brace characters that follows). -/
def jsonMatchAt (l : List Char) : Option (List Char) :=
  match l with
  | [] => none
  | c :: cs =>
    if c = '{' then
      match nextBrace cs with
      | some (b1, '{', r1) =>
        (match nextBrace r1 with
         | some (b2, '}', r2) =>
           (match nextBrace r2 with
            | some (b3, '}', _) =>
              some ('{' :: b1 ++ '{' :: b2 ++ '}' :: b3 ++ ['}'])
            | _ => none)
         | _ => none)
      | some (b1, '}', _) => some ('{' :: b1 ++ ['}'])
      | _ => none
    else none

/-- Leftmost match of the bounded JSON-extraction pattern. -/
def jsonSearchList : List Char → Option (List Char)
  | [] => none
  | l@(_ :: cs) =>
    match jsonMatchAt l with
    | some m => some m
    | none => jsonSearchList cs

/-- Stage 2 of the parser: `re.search` for the first object-shaped
substring (`json_match` in the source). -/
def jsonSearch (s : String) : Option String := (jsonSearchList s.data).map (⟨·⟩)

/-- The SQL keywords of the direct-statement fallback pattern, in the
alternation order of the source regex. -/
def sqlKeywords : List (List Char) :=
  ["SELECT".data, "INSERT".data, "UPDATE".data, "DELETE".data,
   "CREATE".data, "ALTER".data, "DROP".data]

/-- Case-insensitive match of a keyword at the head of the input, returning
the original characters consumed and the rest. -/
def ciPrefixMatch : List Char → List Char → Option (List Char × List Char)
  | [], l => some ([], l)
  | _ :: _, [] => none
  | k :: ks, c :: cs =>
    if asciiUpper c = k then (ciPrefixMatch ks cs).map (fun p => (c :: p.1, p.2))
    else none

/-- Try each keyword of the alternation in order at this position. -/
def tryKeywords : List (List Char) → List Char → Option (List Char × List Char)
  | [], _ => none
  | kw :: rest, l =>
    match ciPrefixMatch kw l with
    | some p => some p
    | none => tryKeywords rest l

/-- Characters up to and including the first semicolon (the lazy `.*?;`
with `re.DOTALL`). -/
def takeThroughSemi : List Char → Option (List Char)
  | [] => none
  | c :: cs =>
    if c = ';' then some [c]
    else (takeThroughSemi cs).map (c :: ·)

/-- Leftmost match of the direct-statement pattern: the first position
where a keyword matches case-insensitively and a semicolon follows. -/
def sqlSearchList : List Char → Option (List Char)
  | [] => none
  | l@(_ :: cs) =>
    match tryKeywords sqlKeywords l with
    | some (p, r) =>
      (match takeThroughSemi r with
       | some mid => some (p ++ mid)
       | none => sqlSearchList cs)
    | none => sqlSearchList cs

/-- Stage 5 of the parser: `re.search` for a bare SQL statement
(`sql_match` in the source); the code uses the whole match, `group()`. -/
def sqlSearch (s : String) : Option String := (sqlSearchList s.data).map (⟨·⟩)

example : cleanFences "```json\n\x7b\"a\": 1\x7d\n```" = "\x7b\"a\": 1\x7d" := rfl
example : jsonSearch "x \x7ba\x7d y \x7bb\x7d" = some "\x7ba\x7d" := rfl
example : jsonSearch "\x7b \x7binner\x7d tail\x7d" = some "\x7b \x7binner\x7d tail\x7d" := rfl
example : sqlSearch "so select 1 ; rest" = some "select 1 ;" := rfl
example : sqlSearch "nothing here" = none := rfl

/-! ## Result types and the response-parsing pipeline -/

/-- The `status` field of the source's result dictionaries. -/
inductive Status where
  | success
  | failure
deriving DecidableEq

/-- The dictionary returned by `yandex_gpt_query`. -/
structure ModelResult where
  status : Status
  answer : String
  error : String
deriving DecidableEq

/-- The dictionary returned by `natural_language_to_sql`. -/
structure TranslationResult where
  status : Status
  sql : String
  error_description : String
  raw_response : String
deriving DecidableEq

/-- Python exceptions that can escape an operation inside the `try` block:
`json.loads` raising `json.JSONDecodeError`, and `.strip()` on a truthy
non-string field raising `AttributeError`. -/
inductive PyExn where
  | jsonDecodeError (msg : String)
  | attributeError (msg : String)
deriving DecidableEq

/-- `result[key].strip() if result[key] else ""`: truthiness is tested
first; a truthy non-string raises `AttributeError`. -/
def fieldToStripped (v : JsonVal) : Except PyExn String :=
  if jvTruthy v then
    match v with
    | .str s => .ok (pyStrip s)
    | v => .error (.attributeError ("'" ++ pyTypeName v ++ "' object has no attribute 'strip'"))
  else .ok ""

/-- Strip exactly one layer of straight double quotes when the value is
non-empty and both starts and ends with one (`sql_query[1:-1]`). -/
def unquoteOnce (s : String) : String :=
  if s ≠ "" ∧ s.data.head? = some '"' ∧ s.data.getLast? = some '"' then
    ⟨(s.data.drop 1).dropLast⟩
  else s

/-- Stage 4, the field-normalization decision rule, applied to the already
stripped `sql` (before unquoting) and `error_description` values. -/
def decisionCore (t sq0 ed : String) : TranslationResult :=
  if unquoteOnce sq0 ≠ "" ∧ ed = "" then ⟨.success, unquoteOnce sq0, "", t⟩
  else ⟨.failure, "", if ed ≠ "" then ed else "LLM couldn't generate SQL query", t⟩

/-- The decision rule applied to raw string field values `s` (the `sql`
field) and `e` (the `error_description` field). -/
def decisionRule (t s e : String) : TranslationResult :=
  decisionCore t (pyStrip s) (pyStrip e)

/-- Stage 5/6: the direct-statement fallback on the original (stripped)
answer text, and the total-failure result when it finds nothing. -/
def directFallback (t : String) : TranslationResult :=
  match sqlSearch t with
  | some m => ⟨.success, pyStrip m, "", t⟩
  | none => ⟨.failure, "", "Failed to parse model response.", t⟩

/-- The `except json.JSONDecodeError` handler: the same direct-statement
fallback, but embedding the decode error in the total-failure message. -/
def jsonFallback (t msg : String) : TranslationResult :=
  match sqlSearch t with
  | some m => ⟨.success, pyStrip m, "", t⟩
  | none => ⟨.failure, "", "Failed to parse model response: " ++ msg, t⟩

/-- The body of the `try` block (lines 221–283 of `llm.py`): de-fence,
search for an object-shaped candidate, `json.loads` it, normalize the two
fields when both keys are present, otherwise fall through to the
direct-statement fallback.  Exceptions propagate as `Except.error`.
When `json.loads` succeeds the candidate starts with a brace, so the value
is an object; non-object values fall through like objects lacking the keys
(that branch is unreachable). -/
def tryBody (t : String) : Except PyExn TranslationResult :=
  match jsonSearch (cleanFences t) with
  | none => .ok (directFallback t)
  | some cand =>
    match jsonLoads cand with
    | .error msg => .error (.jsonDecodeError msg)
    | .ok v =>
      if jvHasKey v "sql" && jvHasKey v "error_description" then
        match fieldToStripped (jvGetD v "sql") with
        | .error e => .error e
        | .ok sq0 =>
          match fieldToStripped (jvGetD v "error_description") with
          | .error e => .error e
          | .ok ed => .ok (decisionCore t sq0 ed)
      else .ok (directFallback t)

/-- The response parser: the `try` block wrapped in its two handlers.
`except json.JSONDecodeError` retries the direct-statement fallback;
`except Exception` converts anything else into a failure result, so no
exception escapes. -/
def parseAnswer (t : String) : TranslationResult :=
  match tryBody t with
  | .ok r => r
  | .error (.jsonDecodeError msg) => jsonFallback t msg
  | .error (.attributeError msg) =>
    ⟨.failure, "", "Unexpected error processing LLM response: " ++ msg, t⟩

/-- The non-debug path of `natural_language_to_sql` (lines 202–311), with
the model call's result supplied as an argument: a failed call returns an
`LLM API error` failure with empty `raw_response`; a successful call strips
the answer and runs the parser on it. -/
def nlToSqlFromLlm (resp : ModelResult) : TranslationResult :=
  if resp.status = .failure then ⟨.failure, "", "LLM API error: " ++ resp.error, ""⟩
  else parseAnswer (pyStrip resp.answer)

/-- `natural_language_to_sql` itself.  In debug mode the source assigns the
fixture to `result_text` and prints it, but the whole parsing block
(lines 202–311) is indented under the `else` branch, so the function falls
off the end and implicitly returns `None`: modelled as `none`. -/
def natural_language_to_sql (debug_mode : Bool) (resp : ModelResult) :
    Option TranslationResult :=
  if debug_mode then none else some (nlToSqlFromLlm resp)

/-- The hard-coded fixture of `llm_debug_answer`. -/
def llm_debug_answer : String :=
  "\x7b \"sql\": \"SELECT u.full_name, COUNT(o.id) AS order_count, " ++
  "MAX(o.created_at) AS last_purchase " ++
  "FROM simulator.karpovexpress_users u " ++
  "JOIN simulator.karpovexpress_orders o " ++
  "ON u.id = o.user_id GROUP BY u.full_name " ++
  "ORDER BY order_count DESC LIMIT 5\", \"error_description\": \"\" \x7d"

/-- Python falsiness of an optional environment value: `os.getenv` returns
`None` when unset, and `not value` is also true for the empty string. -/
def pyFalsyOpt : Option String → Bool
  | none => true
  | some s => decide (s = "")

/-- The configuration check at the head of `yandex_gpt_query`
(lines 23–37): `some` is an early failure return emitted before the
request is built or sent; `none` means both values are present and control
proceeds to the network call. -/
def yandex_gpt_query_config (apiKey folderId : Option String) : Option ModelResult :=
  if pyFalsyOpt apiKey then
    some ⟨.failure, "", "Missing environment variable: YANDEX_API_KEY"⟩
  else if pyFalsyOpt folderId then
    some ⟨.failure, "", "Missing environment variable: YANDEX_FOLDER_ID"⟩
  else none

example : parseAnswer "\x7b\"sql\": \"SELECT 1;\", \"error_description\": \"\"\x7d" =
    ⟨.success, "SELECT 1;", "",
     "\x7b\"sql\": \"SELECT 1;\", \"error_description\": \"\"\x7d"⟩ := rfl

example : parseAnswer "\x7b\"sql\": \"SELECT 1;\", \"error_description\": \"ambiguous\"\x7d" =
    ⟨.failure, "", "ambiguous",
     "\x7b\"sql\": \"SELECT 1;\", \"error_description\": \"ambiguous\"\x7d"⟩ := rfl

example : parseAnswer "no structure at all" =
    ⟨.failure, "", "Failed to parse model response.", "no structure at all"⟩ := rfl

set_option maxRecDepth 4000 in
example : (parseAnswer llm_debug_answer).status = Status.success := by decide

/-! ## Models from `database.py` -/

/-- The characters the specification's allow-set describes: ASCII
alphanumerics plus underscore and hyphen. -/
def allowedTableChar (c : Char) : Bool := c.isAlphanum || c == '_' || c == '-'

/-- `name.replace("_", "").replace("-", "")`. -/
def stripUnderscoreHyphen (s : String) : String :=
  ⟨s.data.filter (fun c => decide (c ≠ '_' ∧ c ≠ '-'))⟩

/-- Python `str.isalnum()` on the ASCII fragment: non-empty and every
character alphanumeric.  (Python's `isalnum` additionally accepts
non-ASCII Unicode alphanumerics, outside the modelled fragment.) -/
def pyIsAlnumStr (s : String) : Bool :=
  decide (s.data ≠ []) && s.data.all Char.isAlphanum

/-- The sanitization test of `build_dbml_schema` (line 91):
`name.replace("_", "").replace("-", "").isalnum()`. -/
def tableNameOk (name : String) : Bool := pyIsAlnumStr (stripUnderscoreHyphen name)

/-- Exceptions `build_dbml_schema` can raise: the `ValueError` for an
invalid table name, and the `RuntimeError` wrapping a catalog failure. -/
inductive SchemaError where
  | invalidTableName (name : String)
  | queryFailure (msg : String)
deriving DecidableEq

/-- The sanitization loop (lines 89–93): collect names in order, raising
`ValueError` at the first invalid one. -/
def sanitizeTableNames : List String → Except SchemaError (List String)
  | [] => .ok []
  | n :: rest =>
    if tableNameOk n then (sanitizeTableNames rest).map (n :: ·)
    else .error (.invalidTableName n)

/-- One row of the catalog query result. -/
structure CatalogRow where
  table_name : String
  column_name : String
  data_type : String
deriving DecidableEq

/-- The interpolated catalog query text (whitespace condensed). -/
def schemaQuery (names : List String) : String :=
  "SELECT table_name, column_name, data_type FROM information_schema.columns " ++
  "WHERE table_schema = 'public' AND table_name IN ('" ++
  String.intercalate "', '" names ++
  "') ORDER BY table_name, ordinal_position;"

/-- The fixed lexical type mapping of `map_type`, after lowercasing. -/
def map_type (pg_type : String) : String :=
  let t := asciiLower pg_type
  if t = "double precision" then "double"
  else if t = "integer" then "int"
  else if t = "character varying" then "varchar"
  else if t = "timestamp without time zone" then "timestamp"
  else if t = "timestamp with time zone" then "timestamptz"
  else if t = "boolean" then "bool"
  else if t = "bigint" then "bigint"
  else if t = "smallint" then "smallint"
  else if t = "numeric" ∨ t = "decimal" then "decimal"
  else t

/-- The keys of the fixed lexical map, as the source spells them. -/
def mapTypeKeys : List String :=
  ["double precision", "integer", "character varying",
   "timestamp without time zone", "timestamp with time zone",
   "boolean", "bigint", "smallint", "numeric", "decimal"]

/-- The rendering loop of `build_dbml_schema` (lines 141–158): emit a
table header whenever the table name differs from the running
`current_table`, close the previous block first, and one column line per
row; close the last block at the end. -/
def dbmlLines : List CatalogRow → Option String → List String
  | [], cur => if cur.isSome then ["\x7d"] else []
  | r :: rest, cur =>
    (if cur = some r.table_name then []
     else (if cur.isSome then ["\x7d"] else []) ++ ["Table " ++ r.table_name ++ " \x7b"]) ++
    ("  " ++ r.column_name ++ " " ++ map_type r.data_type) ::
    dbmlLines rest (some r.table_name)

/-- `build_dbml_schema`, with the already-decoded `TABLES` list and the
catalog query as an oracle (`execute_sql_query` returning rows or an error
string).  An empty table list and an empty result both yield the empty
schema; an invalid name raises before the query is issued. -/
def build_dbml_schema (table_names : List String)
    (runQuery : String → Except String (List CatalogRow)) :
    Except SchemaError String :=
  if table_names = [] then .ok ""
  else
    match sanitizeTableNames table_names with
    | .error e => .error e
    | .ok safe =>
      match runQuery (schemaQuery safe) with
      | .error err => .error (.queryFailure ("Failed to fetch schema: " ++ err))
      | .ok rows =>
        if rows = [] then .ok ""
        else .ok (String.intercalate "\n" (dbmlLines rows none))

example : tableNameOk "users" = true := rfl
example : tableNameOk "order-items_2" = true := rfl
example : tableNameOk "_" = false := rfl
example : tableNameOk "a.b" = false := rfl
example : map_type "double precision" = "double" := rfl
example : map_type "TEXT" = "text" := rfl
example : build_dbml_schema ["bad name"] (fun _ => .ok []) =
    .error (.invalidTableName "bad name") := rfl

/-! ## Helper lemmas -/

/-- A string with a non-empty prefix is non-empty. -/
lemma append_ne_empty_left (a b : String) (h : a.data ≠ []) : a ++ b ≠ "" := by
  intro hc
  have hd : (a ++ b).data = [] := by rw [hc]
  rw [String.data_append] at hd
  exact h (List.append_eq_nil.mp hd).1

/-- An element failing the predicate survives `dropWhile`. -/
lemma mem_dropWhile_of_false {p : Char → Bool} {x : Char} {l : List Char}
    (hx : x ∈ l) (hpx : p x = false) : x ∈ l.dropWhile p := by
  induction l with
  | nil => cases hx
  | cons a t ih =>
    rw [List.dropWhile]
    cases ha : p a with
    | true =>
      rcases List.mem_cons.mp hx with h | h
      · subst h; rw [ha] at hpx; cases hpx
      · exact ih h
    | false => simpa using hx

/-- A list containing a non-whitespace character does not strip to empty. -/
lemma pyStripList_ne_nil {x : Char} {l : List Char}
    (hx : x ∈ l) (hpx : pyIsSpace x = false) : pyStripList l ≠ [] := by
  unfold pyStripList
  intro hc
  have h1 : x ∈ l.dropWhile pyIsSpace := mem_dropWhile_of_false hx hpx
  have h2 : x ∈ (l.dropWhile pyIsSpace).reverse := List.mem_reverse.mpr h1
  have h3 : x ∈ (l.dropWhile pyIsSpace).reverse.dropWhile pyIsSpace :=
    mem_dropWhile_of_false h2 hpx
  rw [List.reverse_eq_nil_iff.mp hc] at h3
  cases h3

/-- `takeThroughSemi` always ends at a semicolon, so its result contains one. -/
lemma takeThroughSemi_mem_semi {l m : List Char} (h : takeThroughSemi l = some m) :
    ';' ∈ m := by
  induction l generalizing m with
  | nil => cases h
  | cons c cs ih =>
    rw [takeThroughSemi] at h
    by_cases hc : c = ';'
    · rw [if_pos hc] at h
      cases h
      exact List.mem_singleton.mpr hc.symm
    · rw [if_neg hc] at h
      rcases Option.map_eq_some'.mp h with ⟨m2, hm2, hme⟩
      subst hme
      exact List.mem_cons_of_mem c (ih hm2)

/-- Every match of the direct-statement pattern contains a semicolon. -/
lemma sqlSearchList_mem_semi {l m : List Char} (h : sqlSearchList l = some m) :
    ';' ∈ m := by
  induction l generalizing m with
  | nil => cases h
  | cons c cs ih =>
    rw [sqlSearchList] at h
    rcases hk : tryKeywords sqlKeywords (c :: cs) with _ | ⟨p, r⟩
    · rw [hk] at h
      exact ih h
    · simp only [hk] at h
      cases hts : takeThroughSemi r with
      | none => rw [hts] at h; exact ih h
      | some mid =>
        rw [hts] at h
        cases h
        exact List.mem_append.mpr (Or.inr (takeThroughSemi_mem_semi hts))

/-- A direct-statement match stays non-empty after stripping. -/
lemma sqlSearch_strip_ne {s m : String} (h : sqlSearch s = some m) :
    pyStrip m ≠ "" := by
  unfold sqlSearch at h
  rcases Option.map_eq_some'.mp h with ⟨lm, hlm, hme⟩
  subst hme
  intro hc
  have hd : pyStripList lm = [] := congrArg String.data hc
  exact pyStripList_ne_nil (sqlSearchList_mem_semi hlm) (by decide) hd

/-- The invariant every `TranslationResult` leaving the pipeline satisfies. -/
def resultInv (r : TranslationResult) : Prop :=
  (r.status = Status.success → r.sql ≠ "" ∧ r.error_description = "") ∧
  (r.status = Status.failure → r.sql = "" ∧ r.error_description ≠ "") ∧
  ¬(r.sql = "" ∧ r.error_description = "")

/-- A success record with non-empty `sql` satisfies the invariant. -/
lemma resultInv_success (sql rr : String) (hs : sql ≠ "") :
    resultInv ⟨Status.success, sql, "", rr⟩ := by
  unfold resultInv
  refine ⟨?_, ?_, ?_⟩
  · intro _
    exact ⟨hs, rfl⟩
  · intro h
    exact nomatch h
  · intro hc
    exact hs hc.1

/-- A failure record with non-empty `error_description` satisfies the
invariant. -/
lemma resultInv_failure (ed rr : String) (he : ed ≠ "") :
    resultInv ⟨Status.failure, "", ed, rr⟩ := by
  unfold resultInv
  refine ⟨?_, ?_, ?_⟩
  · intro h
    exact nomatch h
  · intro _
    exact ⟨rfl, he⟩
  · intro hc
    exact he hc.2

lemma resultInv_directFallback (t : String) : resultInv (directFallback t) := by
  unfold directFallback
  cases hs : sqlSearch t with
  | some m => exact resultInv_success _ _ (sqlSearch_strip_ne hs)
  | none => exact resultInv_failure _ _ (by decide)

lemma resultInv_jsonFallback (t msg : String) : resultInv (jsonFallback t msg) := by
  unfold jsonFallback
  cases hs : sqlSearch t with
  | some m => exact resultInv_success _ _ (sqlSearch_strip_ne hs)
  | none => exact resultInv_failure _ _ (append_ne_empty_left _ _ (by decide))

lemma resultInv_decisionCore (t a b : String) : resultInv (decisionCore t a b) := by
  unfold decisionCore
  split
  · next h => exact resultInv_success _ _ h.1
  · next h =>
    by_cases hb : b ≠ ""
    · rw [if_pos hb]
      exact resultInv_failure _ _ hb
    · rw [if_neg hb]
      exact resultInv_failure _ _ (by decide)

lemma raw_directFallback (t : String) : (directFallback t).raw_response = t := by
  unfold directFallback
  cases hs : sqlSearch t <;> rfl

lemma raw_jsonFallback (t msg : String) : (jsonFallback t msg).raw_response = t := by
  unfold jsonFallback
  cases hs : sqlSearch t <;> rfl

lemma raw_decisionCore (t a b : String) : (decisionCore t a b).raw_response = t := by
  unfold decisionCore
  split <;> rfl

/-- Every result the `try` block can return is either a fallthrough to the
direct-statement fallback or a decision-rule result. -/
lemma tryBody_ok_shape {t : String} {r : TranslationResult} (h : tryBody t = .ok r) :
    r = directFallback t ∨ ∃ sq0 ed, r = decisionCore t sq0 ed := by
  unfold tryBody at h
  cases hj : jsonSearch (cleanFences t) with
  | none =>
    rw [hj] at h
    cases h
    exact Or.inl rfl
  | some cand =>
    simp only [hj] at h
    cases hl : jsonLoads cand with
    | error msg => rw [hl] at h; exact Except.noConfusion h
    | ok v =>
      simp only [hl] at h
      cases hk : (jvHasKey v "sql" && jvHasKey v "error_description") with
      | false =>
        simp only [hk, Bool.false_eq_true, if_false] at h
        cases h
        exact Or.inl rfl
      | true =>
        simp only [hk, if_true] at h
        cases hf1 : fieldToStripped (jvGetD v "sql") with
        | error e => rw [hf1] at h; exact Except.noConfusion h
        | ok sq0 =>
          simp only [hf1] at h
          cases hf2 : fieldToStripped (jvGetD v "error_description") with
          | error e => rw [hf2] at h; exact Except.noConfusion h
          | ok ed =>
            simp only [hf2] at h
            cases h
            exact Or.inr ⟨sq0, ed, rfl⟩

lemma resultInv_parseAnswer (t : String) : resultInv (parseAnswer t) := by
  unfold parseAnswer
  cases ht : tryBody t with
  | ok r =>
    rcases tryBody_ok_shape ht with h | ⟨a, b, h⟩ <;> subst h
    · exact resultInv_directFallback t
    · exact resultInv_decisionCore t a b
  | error e =>
    cases e with
    | jsonDecodeError msg => exact resultInv_jsonFallback t msg
    | attributeError msg =>
      exact resultInv_failure _ _ (append_ne_empty_left _ _ (by decide))

lemma raw_parseAnswer (t : String) : (parseAnswer t).raw_response = t := by
  unfold parseAnswer
  cases ht : tryBody t with
  | ok r =>
    rcases tryBody_ok_shape ht with h | ⟨a, b, h⟩ <;> subst h
    · exact raw_directFallback t
    · exact raw_decisionCore t a b
  | error e =>
    cases e with
    | jsonDecodeError msg => exact raw_jsonFallback t msg
    | attributeError msg => rfl

/-- Stripping a string field never raises: truthiness and `strip` agree
with plain stripping even for the empty string. -/
lemma fieldToStripped_str (s : String) : fieldToStripped (.str s) = .ok (pyStrip s) := by
  unfold fieldToStripped jvTruthy
  by_cases h : s = ""
  · subst h
    rfl
  · simp [h]

/-- When the first candidate parses to an object whose `sql` and
`error_description` fields are strings, the parser resolves by the
decision rule on those two fields. -/
lemma parseAnswer_json_fields {t cand : String} {v : JsonVal} {s e : String}
    (h1 : jsonSearch (cleanFences t) = some cand)
    (h2 : jsonLoads cand = .ok v)
    (h3 : jvGet v "sql" = some (.str s))
    (h4 : jvGet v "error_description" = some (.str e)) :
    parseAnswer t = decisionRule t s e := by
  have hk1 : jvHasKey v "sql" = true := by
    unfold jvHasKey
    rw [h3]
    rfl
  have hk2 : jvHasKey v "error_description" = true := by
    unfold jvHasKey
    rw [h4]
    rfl
  have hg1 : jvGetD v "sql" = .str s := by
    unfold jvGetD
    rw [h3]
    rfl
  have hg2 : jvGetD v "error_description" = .str e := by
    unfold jvGetD
    rw [h4]
    rfl
  have hb : tryBody t = .ok (decisionCore t (pyStrip s) (pyStrip e)) := by
    unfold tryBody
    rw [h1]
    simp only [h2, hk1, hk2, Bool.and_self, if_true, hg1, hg2, fieldToStripped_str]
  unfold parseAnswer
  rw [hb]
  rfl

/-! ## Claim theorems -/

/-- C1, counterexample to the claim as stated: in the answer text
`\x7b"sql": "\\"", "error_description": ""\x7d` the trimmed `sql` value is the
single double-quote character (non-empty) and the trimmed
`error_description` is empty, so the claim predicts success — but the code
tests emptiness only after quote-stripping, which turns the lone quote into
the empty string, and returns the fallback failure instead. -/
theorem C1_counterexample :
    pyStrip "\"" ≠ "" ∧ pyStrip "" = "" ∧
    jsonSearch (cleanFences "\x7b\"sql\": \"\\\"\", \"error_description\": \"\"\x7d") =
      some "\x7b\"sql\": \"\\\"\", \"error_description\": \"\"\x7d" ∧
    jsonLoads "\x7b\"sql\": \"\\\"\", \"error_description\": \"\"\x7d" =
      Except.ok (.obj [("sql", JsonVal.str "\""), ("error_description", JsonVal.str "")]) ∧
    parseAnswer "\x7b\"sql\": \"\\\"\", \"error_description\": \"\"\x7d" =
      ⟨Status.failure, "", "LLM couldn't generate SQL query",
        "\x7b\"sql\": \"\\\"\", \"error_description\": \"\"\x7d"⟩ :=
  ⟨by decide, by decide, rfl, rfl, rfl⟩

/-- C1 (amended): when the first brace-delimited candidate of the de-fenced
answer parses as a JSON object whose `sql` and `error_description` fields
are strings, the parser resolves by the decision rule on those fields, and
the result is a success exactly when the trimmed, once-unquoted `sql` is
non-empty and the trimmed `error_description` is empty (otherwise a
failure carrying the trimmed `error_description` when non-empty, else the
fixed fallback message). -/
theorem C1_amended (t cand : String) (v : JsonVal) (s e : String)
    (h1 : jsonSearch (cleanFences t) = some cand)
    (h2 : jsonLoads cand = Except.ok v)
    (h3 : jvGet v "sql" = some (JsonVal.str s))
    (h4 : jvGet v "error_description" = some (JsonVal.str e)) :
    parseAnswer t = decisionRule t s e ∧
    ((parseAnswer t).status = Status.success ↔
      unquoteOnce (pyStrip s) ≠ "" ∧ pyStrip e = "") := by
  have hp := parseAnswer_json_fields h1 h2 h3 h4
  refine ⟨hp, ?_⟩
  rw [hp]
  unfold decisionRule decisionCore
  by_cases hc : unquoteOnce (pyStrip s) ≠ "" ∧ pyStrip e = ""
  · rw [if_pos hc]
    simp only [true_iff]
    exact hc
  · rw [if_neg hc]
    constructor
    · intro h
      exact nomatch h
    · intro h
      exact absurd h hc

/-- C1 witness: the amended theorem applied to a well-formed answer. -/
theorem C1_amended_witness :
    parseAnswer "\x7b\"sql\": \"SELECT 1;\", \"error_description\": \"\"\x7d" =
      decisionRule "\x7b\"sql\": \"SELECT 1;\", \"error_description\": \"\"\x7d"
        "SELECT 1;" "" ∧
    ((parseAnswer "\x7b\"sql\": \"SELECT 1;\", \"error_description\": \"\"\x7d").status =
        Status.success ↔
      unquoteOnce (pyStrip "SELECT 1;") ≠ "" ∧ pyStrip "" = "") :=
  C1_amended _ _
    (JsonVal.obj [("sql", JsonVal.str "SELECT 1;"), ("error_description", JsonVal.str "")])
    "SELECT 1;" "" rfl rfl rfl rfl

/-- C2: every `TranslationResult` the pipeline returns satisfies the
contract invariant — success implies non-empty `sql` and empty
`error_description`, failure implies empty `sql` and non-empty
`error_description`, and no result has both fields empty. -/
theorem C2_result_invariant : ∀ (d : Bool) (resp : ModelResult) (r : TranslationResult),
    natural_language_to_sql d resp = some r →
    ((r.status = Status.success → r.sql ≠ "" ∧ r.error_description = "") ∧
     (r.status = Status.failure → r.sql = "" ∧ r.error_description ≠ "") ∧
     ¬(r.sql = "" ∧ r.error_description = "")) := by
  intro d resp r h
  unfold natural_language_to_sql at h
  cases d with
  | true => simp at h
  | false =>
    simp only [Bool.false_eq_true, if_false, Option.some.injEq] at h
    subst h
    unfold nlToSqlFromLlm
    by_cases hf : resp.status = Status.failure
    · rw [if_pos hf]
      exact resultInv_failure _ _ (append_ne_empty_left _ _ (by decide))
    · rw [if_neg hf]
      exact resultInv_parseAnswer _

/-- C2 witness: the invariant instantiated on a concrete run. -/
theorem C2_result_invariant_witness :
    (nlToSqlFromLlm ⟨Status.success, "", ""⟩).sql = "" ∧
    (nlToSqlFromLlm ⟨Status.success, "", ""⟩).error_description ≠ "" := by
  have h := C2_result_invariant false ⟨Status.success, "", ""⟩
    (nlToSqlFromLlm ⟨Status.success, "", ""⟩) rfl
  exact h.2.1 rfl

/-- C3: the response parser is total — for every answer string it returns
a `TranslationResult` (whose `raw_response` is the text it was given); the
two `except` handlers of the source are modelled explicitly in
`parseAnswer`, so no exception of the `try` body escapes. -/
theorem C3_parser_total : ∀ t : String, ∃ r : TranslationResult,
    parseAnswer t = r ∧ r.raw_response = t :=
  fun t => ⟨parseAnswer t, rfl, raw_parseAnswer t⟩

/-- C4, counterexample to the claim as stated: the answer below contains a
well-formed JSON object with non-empty `sql` and an `error_description`
field, followed by the bare statement `DROP TABLE t;` — but a decoy
brace-blob earlier in the text is what the bounded extraction stage finds,
its parse fails, and the direct-statement fallback then matches from the
`SELECT` inside the JSON text through to the final semicolon, returning a
string that is neither the object's `sql` nor free of the trailing
statement. -/
theorem C4_counterexample :
    jsonLoads "\x7b\"sql\": \"SELECT 1\", \"error_description\": \"\"\x7d" =
      Except.ok (.obj [("sql", JsonVal.str "SELECT 1"),
                       ("error_description", JsonVal.str "")]) ∧
    ("\x7boops\x7d \x7b\"sql\": \"SELECT 1\", \"error_description\": \"\"\x7d DROP TABLE t;" : String) =
      "\x7boops\x7d " ++ "\x7b\"sql\": \"SELECT 1\", \"error_description\": \"\"\x7d" ++
      " DROP TABLE t;" ∧
    parseAnswer "\x7boops\x7d \x7b\"sql\": \"SELECT 1\", \"error_description\": \"\"\x7d DROP TABLE t;" =
      ⟨Status.success, "SELECT 1\", \"error_description\": \"\"\x7d DROP TABLE t;", "",
        "\x7boops\x7d \x7b\"sql\": \"SELECT 1\", \"error_description\": \"\"\x7d DROP TABLE t;"⟩ ∧
    ("SELECT 1\", \"error_description\": \"\"\x7d DROP TABLE t;" : String) ≠ "SELECT 1" ∧
    strContainsSub "SELECT 1\", \"error_description\": \"\"\x7d DROP TABLE t;"
      "DROP TABLE t;" = true :=
  ⟨rfl, by decide, rfl, by decide, by decide⟩

/-- C4 (amended): when the JSON object is what the extraction stage finds —
its text is the first brace-delimited candidate of the de-fenced answer —
and its string `sql` field survives trimming and unquoting non-empty, the
parser's outcome is fixed by the object's two fields through the decision
rule, even though a bare SQL statement also matches later in the answer:
the JSON stage takes precedence over the direct-statement fallback. -/
theorem C4_amended (t cand : String) (v : JsonVal) (s e m : String)
    (h1 : jsonSearch (cleanFences t) = some cand)
    (h2 : jsonLoads cand = Except.ok v)
    (h3 : jvGet v "sql" = some (JsonVal.str s))
    (h4 : jvGet v "error_description" = some (JsonVal.str e))
    (_h5 : unquoteOnce (pyStrip s) ≠ "")
    (_h6 : sqlSearch t = some m) :
    parseAnswer t = decisionRule t s e :=
  parseAnswer_json_fields h1 h2 h3 h4

/-- C4 witness: precedence on an answer holding both a clean JSON object
and a trailing bare statement. -/
theorem C4_amended_witness :
    parseAnswer "\x7b\"sql\": \"SELECT 2;\", \"error_description\": \"\"\x7d DROP TABLE x;" =
      decisionRule "\x7b\"sql\": \"SELECT 2;\", \"error_description\": \"\"\x7d DROP TABLE x;"
        "SELECT 2;" "" :=
  C4_amended _ "\x7b\"sql\": \"SELECT 2;\", \"error_description\": \"\"\x7d"
    (JsonVal.obj [("sql", JsonVal.str "SELECT 2;"), ("error_description", JsonVal.str "")])
    "SELECT 2;" "" "SELECT 2;" rfl rfl rfl rfl (by decide) rfl

/-- C5, counterexample to the claim as stated: the answer parses to an
object containing one of the two keys (`error_description` only), which
the claim says must be handled by the field-normalization rule (yielding
failure with `error_description = "cannot"`); the code requires both keys
and instead falls through to the direct-statement fallback, producing the
generic total-failure message. -/
theorem C5_counterexample :
    jsonSearch (cleanFences "\x7b\"error_description\": \"cannot\"\x7d") =
      some "\x7b\"error_description\": \"cannot\"\x7d" ∧
    jsonLoads "\x7b\"error_description\": \"cannot\"\x7d" =
      Except.ok (.obj [("error_description", JsonVal.str "cannot")]) ∧
    jvHasKey (JsonVal.obj [("error_description", JsonVal.str "cannot")])
      "error_description" = true ∧
    jvHasKey (JsonVal.obj [("error_description", JsonVal.str "cannot")]) "sql" = false ∧
    parseAnswer "\x7b\"error_description\": \"cannot\"\x7d" =
      ⟨Status.failure, "", "Failed to parse model response.",
        "\x7b\"error_description\": \"cannot\"\x7d"⟩ ∧
    ("Failed to parse model response." : String) ≠ "cannot" :=
  ⟨rfl, rfl, rfl, rfl, rfl, by decide⟩

/-- C5 (amended): after a successful parse of the extracted candidate, the
parser falls through to the direct-statement fallback exactly when the
object lacks at least one of the keys `sql` and `error_description`; only
objects carrying both keys are handled by the field-normalization decision
rule. -/
theorem C5_amended (t cand : String) (v : JsonVal)
    (h1 : jsonSearch (cleanFences t) = some cand)
    (h2 : jsonLoads cand = Except.ok v) :
    ((jvHasKey v "sql" && jvHasKey v "error_description") = false →
        parseAnswer t = directFallback t) ∧
    (∀ s e, jvGet v "sql" = some (JsonVal.str s) →
        jvGet v "error_description" = some (JsonVal.str e) →
        parseAnswer t = decisionRule t s e) := by
  constructor
  · intro hk
    have hb : tryBody t = .ok (directFallback t) := by
      unfold tryBody
      rw [h1]
      simp only [h2, hk, Bool.false_eq_true, if_false]
    unfold parseAnswer
    rw [hb]
  · intro s e h3 h4
    exact parseAnswer_json_fields h1 h2 h3 h4

/-- C5 witness: a parsed object lacking both keys falls through. -/
theorem C5_amended_witness :
    parseAnswer "\x7b\"note\": \"hi\"\x7d" = directFallback "\x7b\"note\": \"hi\"\x7d" :=
  (C5_amended "\x7b\"note\": \"hi\"\x7d" "\x7b\"note\": \"hi\"\x7d"
    (JsonVal.obj [("note", JsonVal.str "hi")]) rfl rfl).1 rfl

/-- C6, counterexample to the claim as stated: for a successful model call
whose answer carries surrounding whitespace, every stage stores the
stripped text in `raw_response`, not the verbatim answer. -/
theorem C6_counterexample :
    natural_language_to_sql false ⟨Status.success, " x\n", ""⟩ =
      some ⟨Status.failure, "", "Failed to parse model response.", "x"⟩ ∧
    ("x" : String) ≠ " x\n" :=
  ⟨rfl, by decide⟩

/-- C6 (amended): for every successful model call, `raw_response` equals
the answer text with leading and trailing whitespace stripped
(`answer.strip()`), uniformly across all parsing stages. -/
theorem C6_amended (resp : ModelResult) (r : TranslationResult)
    (hs : resp.status = Status.success)
    (h : natural_language_to_sql false resp = some r) :
    r.raw_response = pyStrip resp.answer := by
  unfold natural_language_to_sql at h
  simp only [Bool.false_eq_true, if_false, Option.some.injEq] at h
  subst h
  unfold nlToSqlFromLlm
  rw [hs, if_neg (by decide)]
  exact raw_parseAnswer _

/-- C6 witness: the amended statement on a concrete run. -/
theorem C6_amended_witness :
    (⟨Status.failure, "", "Failed to parse model response.", "abc"⟩ :
      TranslationResult).raw_response = pyStrip " abc " :=
  C6_amended ⟨Status.success, " abc ", ""⟩ _ rfl rfl

/-- C7, counterexample to the claim as stated: with both configuration
values missing, the early-return failure names only `YANDEX_API_KEY`; the
folder identifier is not mentioned. -/
theorem C7_counterexample :
    yandex_gpt_query_config none none =
      some ⟨Status.failure, "", "Missing environment variable: YANDEX_API_KEY"⟩ ∧
    strContainsSub "Missing environment variable: YANDEX_API_KEY"
      "YANDEX_FOLDER_ID" = false :=
  ⟨rfl, by decide⟩

/-- C7 (amended): a missing (unset or empty) API key or folder identifier
yields an immediate failure, before the request is ever built or sent,
naming the first missing value in check order — the API key is checked
first, so when both are missing only `YANDEX_API_KEY` is named; with both
present the function proceeds to the network call. -/
theorem C7_amended (apiKey folderId : Option String) :
    (pyFalsyOpt apiKey = true →
        yandex_gpt_query_config apiKey folderId =
          some ⟨Status.failure, "", "Missing environment variable: YANDEX_API_KEY"⟩) ∧
    (pyFalsyOpt apiKey = false → pyFalsyOpt folderId = true →
        yandex_gpt_query_config apiKey folderId =
          some ⟨Status.failure, "", "Missing environment variable: YANDEX_FOLDER_ID"⟩) ∧
    (pyFalsyOpt apiKey = false → pyFalsyOpt folderId = false →
        yandex_gpt_query_config apiKey folderId = none) := by
  unfold yandex_gpt_query_config
  refine ⟨?_, ?_, ?_⟩
  · intro h1
    rw [h1]
    rfl
  · intro h1 h2
    rw [h1, h2]
    rfl
  · intro h1 h2
    rw [h1, h2]
    rfl

/-- C7 witness: a missing API key fails before the network call. -/
theorem C7_amended_witness :
    yandex_gpt_query_config none (some "folder") =
      some ⟨Status.failure, "", "Missing environment variable: YANDEX_API_KEY"⟩ :=
  (C7_amended none (some "folder")).1 rfl

/-- Two booleans agreeing as propositions are equal. -/
lemma bool_eq_of_iff {a b : Bool} (h : a = true ↔ b = true) : a = b := by
  cases a <;> cases b <;> simp_all

/-- The sanitization test, unfolded to a proposition about the character
list with underscores and hyphens filtered out. -/
lemma tableNameOk_iff (name : String) :
    tableNameOk name = true ↔
    ((name.data.filter fun c => decide (c ≠ '_' ∧ c ≠ '-')) ≠ [] ∧
      ∀ x ∈ name.data.filter fun c => decide (c ≠ '_' ∧ c ≠ '-'),
        Char.isAlphanum x = true) := by
  unfold tableNameOk pyIsAlnumStr stripUnderscoreHyphen
  rw [Bool.and_eq_true, decide_eq_true_iff, List.all_eq_true]

/-- Character-list form of the corrected sanitization property: the
filtered list is non-empty and all-alphanumeric exactly when every
character is in the allow-set and at least one is alphanumeric. -/
lemma sanitize_list_iff (l : List Char) :
    ((l.filter fun c => decide (c ≠ '_' ∧ c ≠ '-')) ≠ [] ∧
      ∀ x ∈ l.filter fun c => decide (c ≠ '_' ∧ c ≠ '-'), Char.isAlphanum x = true) ↔
    ((∀ x ∈ l, allowedTableChar x = true) ∧ ∃ x ∈ l, Char.isAlphanum x = true) := by
  constructor
  · rintro ⟨hne, hall⟩
    constructor
    · intro x hx
      by_cases hu : x = '_' ∨ x = '-'
      · rcases hu with h | h <;> subst h <;> decide
      · push_neg at hu
        have hxf : x ∈ l.filter fun c => decide (c ≠ '_' ∧ c ≠ '-') :=
          List.mem_filter.mpr ⟨hx, by simp [hu.1, hu.2]⟩
        have hxa := hall x hxf
        unfold allowedTableChar
        simp [hxa]
    · obtain ⟨x, hxf⟩ := List.exists_mem_of_ne_nil _ hne
      have hx := List.mem_filter.mp hxf
      exact ⟨x, hx.1, hall x hxf⟩
  · rintro ⟨hall, x, hx, hxa⟩
    have hx_ne : x ≠ '_' ∧ x ≠ '-' := by
      constructor <;> intro hcontra <;> subst hcontra <;>
        exact absurd hxa (by decide)
    constructor
    · exact List.ne_nil_of_mem (List.mem_filter.mpr ⟨hx, by simp [hx_ne.1, hx_ne.2]⟩)
    · intro y hy
      have hym := List.mem_filter.mp hy
      have hy_ne : y ≠ '_' ∧ y ≠ '-' := by
        have h2 := hym.2
        simpa using h2
      have ha := hall y hym.1
      unfold allowedTableChar at ha
      simp only [Bool.or_eq_true, beq_iff_eq] at ha
      rcases ha with (h | h) | h
      · exact h
      · exact absurd h hy_ne.1
      · exact absurd h hy_ne.2

/-- C8, counterexample to the claim as stated: the name `"_"` is composed
solely of characters from the allow-set, yet the code rejects it — after
removing underscores and hyphens the empty string fails `isalnum` — and
`build_dbml_schema` raises the invalid-name error for it. -/
theorem C8_counterexample :
    ("_".data.all allowedTableChar = true) ∧
    tableNameOk "_" = false ∧
    build_dbml_schema ["_"] (fun _ => Except.ok []) =
      Except.error (SchemaError.invalidTableName "_") :=
  ⟨by decide, rfl, rfl⟩

/-- C8 (amended): on ASCII names, sanitization accepts exactly the names
composed solely of characters in the allow-set that contain at least one
alphanumeric character — names consisting only of underscores and hyphens
are rejected — and any sanitization failure is raised by
`build_dbml_schema` as the invalid-name error before any catalog query is
issued (the result does not depend on the query oracle). -/
theorem C8_amended :
    (∀ name : String, (∀ c ∈ name.data, c.toNat < 128) →
        tableNameOk name =
          (name.data.all allowedTableChar && name.data.any Char.isAlphanum)) ∧
    (∀ (names : List String) (e : SchemaError)
        (q : String → Except String (List CatalogRow)),
        sanitizeTableNames names = Except.error e →
        build_dbml_schema names q = Except.error e) := by
  constructor
  · intro name _
    apply bool_eq_of_iff
    rw [tableNameOk_iff, sanitize_list_iff, Bool.and_eq_true, List.all_eq_true,
      List.any_eq_true]
  · intro names e q h
    cases names with
    | nil => simp [sanitizeTableNames] at h
    | cons n rest =>
      unfold build_dbml_schema
      rw [if_neg (by simp), h]

/-- C8 witness: the amended equivalence evaluated on an ASCII name. -/
theorem C8_amended_witness :
    tableNameOk "order_items-2" =
      ("order_items-2".data.all allowedTableChar &&
        "order_items-2".data.any Char.isAlphanum) :=
  C8_amended.1 "order_items-2" (by decide)

/-- C9, counterexample to the claim as stated: `"TEXT"` is not a key of
the lexical map, yet `map_type` does not return it verbatim — the function
lowercases its argument first. -/
theorem C9_counterexample :
    ("TEXT" ∉ mapTypeKeys) ∧ map_type "TEXT" = "text" ∧ ("text" : String) ≠ "TEXT" :=
  ⟨by decide, rfl, by decide⟩

/-- C9 (amended): `map_type` first lowercases its input; every key of the
fixed lexical map is sent to its target spelling, and every input whose
lowercased form is not a key is returned lowercased (unchanged only when
already lowercase). -/
theorem C9_amended :
    (map_type "double precision" = "double" ∧ map_type "integer" = "int" ∧
     map_type "character varying" = "varchar" ∧
     map_type "timestamp without time zone" = "timestamp" ∧
     map_type "timestamp with time zone" = "timestamptz" ∧
     map_type "boolean" = "bool" ∧ map_type "bigint" = "bigint" ∧
     map_type "smallint" = "smallint" ∧ map_type "numeric" = "decimal" ∧
     map_type "decimal" = "decimal") ∧
    (∀ s : String, asciiLower s ∉ mapTypeKeys → map_type s = asciiLower s) := by
  constructor
  · refine ⟨?_, ?_, ?_, ?_, ?_, ?_, ?_, ?_, ?_, ?_⟩ <;> rfl
  · intro s h
    simp only [map_type]
    split_ifs with h1 h2 h3 h4 h5 h6 h7 h8 h9
    · exact absurd (by rw [h1]; decide) h
    · exact absurd (by rw [h2]; decide) h
    · exact absurd (by rw [h3]; decide) h
    · exact absurd (by rw [h4]; decide) h
    · exact absurd (by rw [h5]; decide) h
    · exact absurd (by rw [h6]; decide) h
    · exact absurd (by rw [h7]; decide) h
    · exact absurd (by rw [h8]; decide) h
    · rcases h9 with h9 | h9 <;> exact absurd (by rw [h9]; decide) h
    · rfl

/-- C9 witness: an unmapped mixed-case type comes back lowercased. -/
theorem C9_amended_witness : map_type "TEXT" = asciiLower "TEXT" :=
  C9_amended.2 "TEXT" (by decide)

/-- C10: in debug mode `natural_language_to_sql` returns no result at all —
the parsing block is indented under the `else` branch, so after computing
and printing the fixture the function implicitly returns `None`, never
feeding the fixture through the parser (contradicting its own docstring,
which promises a result dictionary). -/
theorem C10_debug_returns_none : ∀ resp : ModelResult,
    natural_language_to_sql true resp = none :=
  fun _ => rfl
